import Mathlib

/-!
Shallow embedding of `src/pydm/data_plugins/data_store.py`.

The module defines:
  * `DataKeys` — a closed `str` enum of nine semantic field roles, with a
    method `generate_introspection_for` that builds an introspection
    dictionary from optional per-role source keys;
  * `DEFAULT_INTROSPECTION` — the dict comprehension
    `{i.name: i.value for i in DataKeys}`;
  * `DataStore` — a singleton class holding two address-keyed dicts
    (`_data`, `_introspection`) with `introspect`, `fetch`, `update`,
    `remove`, `__getitem__` and `__setitem__`.

Modelling conventions:
  * Python dicts whose pointwise content is what matters (the store's two
    tables, and the introspection dict built by
    `generate_introspection_for`) are modelled as partial maps into
    `Option`; `dict.get(k, None)` is application, `dict.update({k: v})` is
    pointwise overwrite at `k`, `dict.pop(k, None)` is pointwise erasure
    at `k`.
  * `DEFAULT_INTROSPECTION`, whose key SET the spec talks about, is kept
    as an ordered key/value list built by repeated dict assignment.
  * Values stored in the tables are arbitrary Python objects; they are
    modelled by `Obj V` (a dict with entries drawn from a parameter type
    `V`, a tuple of objects, or any other object carrying only its truth
    value), which is enough to express Python's truthiness test
    `if introspection:` and the `isinstance` dispatch of `__setitem__`.
  * Exceptions become `Except PyError`; `raise ValueError("Invalid value.")`
    is `.error (.valueError "Invalid value.")`, and the `IndexError` that
    `value[0]` / `value[1]` raises on a too-short tuple is `.error .indexError`
    (argument expressions are evaluated before `update` is entered, so the
    state is untouched in that case).
-/

/-- The nine members of the `DataKeys(str, Enum)` class, in declaration
order. -/
inductive DataKeys where
  | CONNECTION
  | VALUE
  | SEVERITY
  | WRITE_ACCESS
  | ENUM_STRINGS
  | UNIT
  | PRECISION
  | UPPER_LIMIT
  | LOWER_LIMIT
deriving DecidableEq, Repr

/-- `i.name` for an enum member: its symbolic name. -/
def DataKeys.name : DataKeys → String
  | .CONNECTION => "CONNECTION"
  | .VALUE => "VALUE"
  | .SEVERITY => "SEVERITY"
  | .WRITE_ACCESS => "WRITE_ACCESS"
  | .ENUM_STRINGS => "ENUM_STRINGS"
  | .UNIT => "UNIT"
  | .PRECISION => "PRECISION"
  | .UPPER_LIMIT => "UPPER_LIMIT"
  | .LOWER_LIMIT => "LOWER_LIMIT"

/-- `i.value` for an enum member: the string it was assigned in the class
body (each member is assigned its own name, e.g. `CONNECTION = 'CONNECTION'`). -/
def DataKeys.value : DataKeys → String
  | .CONNECTION => "CONNECTION"
  | .VALUE => "VALUE"
  | .SEVERITY => "SEVERITY"
  | .WRITE_ACCESS => "WRITE_ACCESS"
  | .ENUM_STRINGS => "ENUM_STRINGS"
  | .UNIT => "UNIT"
  | .PRECISION => "PRECISION"
  | .UPPER_LIMIT => "UPPER_LIMIT"
  | .LOWER_LIMIT => "LOWER_LIMIT"

/-- Iteration order of `for i in DataKeys`: the declaration order. -/
def DataKeys.members : List DataKeys :=
  [.CONNECTION, .VALUE, .SEVERITY, .WRITE_ACCESS, .ENUM_STRINGS,
   .UNIT, .PRECISION, .UPPER_LIMIT, .LOWER_LIMIT]

/-- Python truthiness of an optional string argument defaulting to `None`:
`None` and the empty string are falsy, every other string is truthy. -/
def strTruthy : Option String → Bool
  | none => false
  | some s => !s.isEmpty

/-- One step of the loop body of `generate_introspection_for`:
`if val: introspection[key] = val`, on the partial-map model of the
introspection dict. -/
def introStep (introspection : DataKeys → Option String)
    (p : Option String × DataKeys) : DataKeys → Option String :=
  if strTruthy p.1 then
    fun k => if k = p.2 then p.1 else introspection k
  else
    introspection

/-- `DataKeys.generate_introspection_for`: builds the introspection dict
from the nine optional keyword arguments (each defaulting to `None`) by
walking `lookup_table` in order and storing every truthy value under its
role. The `self` receiver is only used to spell the enum members, so it
does not influence the result. -/
def DataKeys.generate_introspection_for (self : DataKeys)
    (connection_key value_key severity_key write_access_key
     enum_strings_key unit_key precision_key upper_limit_key
     lower_limit_key : Option String) : DataKeys → Option String :=
  let lookup_table : List (Option String × DataKeys) :=
    [(connection_key, DataKeys.CONNECTION),
     (value_key, DataKeys.VALUE),
     (severity_key, DataKeys.SEVERITY),
     (write_access_key, DataKeys.WRITE_ACCESS),
     (enum_strings_key, DataKeys.ENUM_STRINGS),
     (unit_key, DataKeys.UNIT),
     (precision_key, DataKeys.PRECISION),
     (upper_limit_key, DataKeys.UPPER_LIMIT),
     (lower_limit_key, DataKeys.LOWER_LIMIT)]
  lookup_table.foldl introStep (fun _ => none)

/-- Dict assignment `d[k] = v` on the ordered key/value-list model:
replace in place if the key is present, append otherwise. -/
def dictAssign (d : List (String × String)) (k v : String) :
    List (String × String) :=
  if d.any (fun p => p.1 = k) then
    d.map (fun p => if p.1 = k then (k, v) else p)
  else
    d ++ [(k, v)]

/-- `DEFAULT_INTROSPECTION = {i.name: i.value for i in DataKeys}`. -/
def DEFAULT_INTROSPECTION : List (String × String) :=
  DataKeys.members.foldl (fun d i => dictAssign d i.name i.value) []

/-- A Python object, as far as the store needs to look at one: a dict
(with entries drawn from some value type `V`), a tuple of objects, or any
other object of which only the truth value matters. -/
inductive Obj (V : Type) where
  | dict (entries : List (String × V)) : Obj V
  | tup (elems : List (Obj V)) : Obj V
  | other (truthy : Bool) : Obj V

/-- Python truthiness of an object: a dict or tuple is truthy iff
non-empty; any other object carries its own truth value. -/
def Obj.truthy {V : Type} : Obj V → Bool
  | .dict entries => !entries.isEmpty
  | .tup elems => !elems.isEmpty
  | .other b => b

/-- Truthiness of the `introspection` argument of `update`, whose default
is `None` (falsy). -/
def optTruthy {V : Type} : Option (Obj V) → Bool
  | none => false
  | some o => o.truthy

/-- The state of the (unique) `DataStore` instance: the `__initialized`
flag set by `__new__`/`__init__`, and the two tables `_data` and
`_introspection` as partial maps from address strings. -/
structure StoreState (V : Type) where
  isInit : Bool
  _data : String → Option (Obj V)
  _introspection : String → Option (Obj V)

/-- A bare object as `__new__` leaves it: `__initialized = False`, no
table contents yet. -/
def StoreState.uninit (V : Type) : StoreState V :=
  { isInit := false, _data := fun _ => none, _introspection := fun _ => none }

/-- `DataStore.__init__`: a no-op when `__initialized` is already set,
otherwise sets the flag and creates the two empty tables. -/
def DataStore.init {V : Type} (s : StoreState V) : StoreState V :=
  if s.isInit then s
  else { isInit := true, _data := fun _ => none, _introspection := fun _ => none }

/-- `DataStore.__new__`: return the cached `__instance` when there is one,
otherwise allocate a fresh uninitialized object. -/
def DataStore.new {V : Type} (inst : Option (StoreState V)) : StoreState V :=
  match inst with
  | none => StoreState.uninit V
  | some s => s

/-- Calling `DataStore()`: `__new__` followed by `__init__`. The call
returns the instance, and — because `__new__` stores the very object it
returns in `cls.__instance` and `__init__` mutates that same object — the
class-level `__instance` slot afterwards holds exactly the returned
instance. -/
def DataStore.acquire {V : Type} (inst : Option (StoreState V)) :
    StoreState V × Option (StoreState V) :=
  let obj := DataStore.init (DataStore.new inst)
  (obj, some obj)

/-- `DataStore.introspect`: `self._introspection.get(address, None)`. -/
def DataStore.introspect {V : Type} (s : StoreState V) (address : String) :
    Option (Obj V) :=
  s._introspection address

/-- `DataStore.fetch` with `with_introspection=False` (the default):
returns `self._data.get(address, None)`. -/
def DataStore.fetch {V : Type} (s : StoreState V) (address : String) :
    Option (Obj V) :=
  s._data address

/-- `DataStore.fetch` with `with_introspection=True`: returns the pair
`(data, intro)`. -/
def DataStore.fetchWithIntrospection {V : Type} (s : StoreState V)
    (address : String) : Option (Obj V) × Option (Obj V) :=
  (s._data address, s._introspection address)

/-- `DataStore.update`: `self._data.update({address: data})`
unconditionally, then `self._introspection.update({address: introspection})`
guarded by `if introspection:` (Python truthiness, so `None` and an empty
dict both skip the overlay write). -/
def DataStore.update {V : Type} (s : StoreState V) (address : String)
    (data : Obj V) (introspection : Option (Obj V)) : StoreState V :=
  let s1 : StoreState V :=
    { s with _data := fun a => if a = address then some data else s._data a }
  if optTruthy introspection then
    { s1 with _introspection :=
        fun a => if a = address then introspection else s1._introspection a }
  else
    s1

/-- `DataStore.remove`: `self._data.pop(address, None)` and
`self._introspection.pop(address, None)`. -/
def DataStore.remove {V : Type} (s : StoreState V) (address : String) :
    StoreState V :=
  { s with
    _data := fun a => if a = address then none else s._data a,
    _introspection := fun a => if a = address then none else s._introspection a }

/-- `DataStore.__getitem__`: `return self.fetch(item)`. -/
def DataStore.getItem {V : Type} (s : StoreState V) (item : String) :
    Option (Obj V) :=
  DataStore.fetch s item

/-- The exceptions the store can raise. -/
inductive PyError where
  | valueError (msg : String)
  | indexError
deriving DecidableEq, Repr

/-- `DataStore.__setitem__`: `isinstance(value, tuple)` dispatches any
tuple — of whatever length — to `self.update(key, value[0], value[1])`
(indexing raises `IndexError` first when the tuple has fewer than two
elements, before `update` runs); `isinstance(value, dict)` dispatches to
`self.update(key, value)`; anything else raises
`ValueError("Invalid value.")`. -/
def DataStore.setItem {V : Type} (s : StoreState V) (key : String)
    (value : Obj V) : Except PyError (StoreState V) :=
  match value with
  | .tup elems =>
    match elems with
    | e0 :: e1 :: _ => .ok (DataStore.update s key e0 (some e1))
    | _ => .error .indexError
  | .dict entries => .ok (DataStore.update s key (.dict entries) none)
  | .other _ => .error (.valueError "Invalid value.")

/-! ### Basic lemmas about the store operations (shared helpers) -/

theorem fetch_update_eq {V : Type} (s : StoreState V) (A : String)
    (p : Obj V) (i : Option (Obj V)) :
    DataStore.fetch (DataStore.update s A p i) A = some p := by
  unfold DataStore.fetch DataStore.update
  by_cases h : optTruthy i <;> simp [h]

theorem fetch_update_ne {V : Type} (s : StoreState V) (A B : String)
    (p : Obj V) (i : Option (Obj V)) (h : B ≠ A) :
    DataStore.fetch (DataStore.update s A p i) B = DataStore.fetch s B := by
  unfold DataStore.fetch DataStore.update
  by_cases hi : optTruthy i <;> simp [hi, h]

theorem introspect_update_ne {V : Type} (s : StoreState V) (A B : String)
    (p : Obj V) (i : Option (Obj V)) (h : B ≠ A) :
    DataStore.introspect (DataStore.update s A p i) B = DataStore.introspect s B := by
  unfold DataStore.introspect DataStore.update
  by_cases hi : optTruthy i <;> simp [hi, h]

theorem introspect_update_falsy {V : Type} (s : StoreState V) (A B : String)
    (p : Obj V) (i : Option (Obj V)) (h : optTruthy i = false) :
    DataStore.introspect (DataStore.update s A p i) B = DataStore.introspect s B := by
  unfold DataStore.introspect DataStore.update
  simp [h]

theorem introspect_update_truthy {V : Type} (s : StoreState V) (A : String)
    (p : Obj V) (i : Option (Obj V)) (h : optTruthy i = true) :
    DataStore.introspect (DataStore.update s A p i) A = i := by
  unfold DataStore.introspect DataStore.update
  simp [h]

theorem fetch_remove_eq {V : Type} (s : StoreState V) (A : String) :
    DataStore.fetch (DataStore.remove s A) A = none := by
  simp [DataStore.fetch, DataStore.remove]

theorem introspect_remove_eq {V : Type} (s : StoreState V) (A : String) :
    DataStore.introspect (DataStore.remove s A) A = none := by
  simp [DataStore.introspect, DataStore.remove]

theorem fetch_remove_ne {V : Type} (s : StoreState V) (A B : String) (h : B ≠ A) :
    DataStore.fetch (DataStore.remove s A) B = DataStore.fetch s B := by
  simp [DataStore.fetch, DataStore.remove, h]

theorem introspect_remove_ne {V : Type} (s : StoreState V) (A B : String) (h : B ≠ A) :
    DataStore.introspect (DataStore.remove s A) B = DataStore.introspect s B := by
  simp [DataStore.introspect, DataStore.remove, h]

theorem init_isInit {V : Type} (s : StoreState V) :
    (DataStore.init s).isInit = true := by
  by_cases h : s.isInit <;> simp [DataStore.init, h]

theorem init_of_isInit {V : Type} (s : StoreState V) (h : s.isInit = true) :
    DataStore.init s = s := by
  simp [DataStore.init, h]

theorem update_isInit {V : Type} (s : StoreState V) (A : String)
    (p : Obj V) (i : Option (Obj V)) :
    (DataStore.update s A p i).isInit = s.isInit := by
  unfold DataStore.update
  by_cases h : optTruthy i <;> simp [h]

/-! ### Operation sequences against the store

To talk about an address that "was never updated" over an arbitrary run of
the program, the three mutating entry points of the store are reified as
operations and executed in sequence. A `__setitem__` call that raises
leaves the state as it was (the exception propagates before any table is
touched). -/

/-- A mutating call against the store. -/
inductive Op (V : Type) where
  | upd (address : String) (data : Obj V) (introspection : Option (Obj V)) : Op V
  | rem (address : String) : Op V
  | assign (address : String) (value : Obj V) : Op V

/-- Execute one mutating call; a raising `__setitem__` leaves the state
unchanged. -/
def applyOp {V : Type} (s : StoreState V) : Op V → StoreState V
  | .upd a d i => DataStore.update s a d i
  | .rem a => DataStore.remove s a
  | .assign a v =>
    match DataStore.setItem s a v with
    | .ok s' => s'
    | .error _ => s

/-- Execute a sequence of mutating calls in order. -/
def runOps {V : Type} (s : StoreState V) (ops : List (Op V)) : StoreState V :=
  ops.foldl applyOp s

/-- Whether an operation writes (updates or assigns) at a given address.
`remove` never writes. -/
def Op.writesTo {V : Type} : Op V → String → Bool
  | .upd a _ _, b => a == b
  | .rem _, _ => false
  | .assign a _, b => a == b

theorem absent_applyOp {V : Type} (s : StoreState V) (o : Op V) (A : String)
    (h1 : DataStore.fetch s A = none) (h2 : DataStore.introspect s A = none)
    (hw : Op.writesTo o A = false) :
    DataStore.fetch (applyOp s o) A = none ∧
    DataStore.introspect (applyOp s o) A = none := by
  cases o with
  | upd a d i =>
    simp only [Op.writesTo, beq_eq_false_iff_ne, ne_eq] at hw
    have hne : A ≠ a := fun h => hw h.symm
    exact ⟨(fetch_update_ne s a A d i hne).trans h1,
           (introspect_update_ne s a A d i hne).trans h2⟩
  | rem a =>
    by_cases hne : A = a
    · subst hne
      exact ⟨fetch_remove_eq s A, introspect_remove_eq s A⟩
    · exact ⟨(fetch_remove_ne s a A hne).trans h1,
             (introspect_remove_ne s a A hne).trans h2⟩
  | assign a v =>
    simp only [Op.writesTo, beq_eq_false_iff_ne, ne_eq] at hw
    have hne : A ≠ a := fun h => hw h.symm
    cases v with
    | dict entries =>
      simp only [applyOp, DataStore.setItem]
      exact ⟨(fetch_update_ne s a A _ none hne).trans h1,
             (introspect_update_ne s a A _ none hne).trans h2⟩
    | tup elems =>
      cases elems with
      | nil => simpa only [applyOp, DataStore.setItem] using ⟨h1, h2⟩
      | cons e0 rest =>
        cases rest with
        | nil => simpa only [applyOp, DataStore.setItem] using ⟨h1, h2⟩
        | cons e1 rest' =>
          simp only [applyOp, DataStore.setItem]
          exact ⟨(fetch_update_ne s a A e0 (some e1) hne).trans h1,
                 (introspect_update_ne s a A e0 (some e1) hne).trans h2⟩
    | other b => simpa only [applyOp, DataStore.setItem] using ⟨h1, h2⟩

theorem absent_runOps {V : Type} (ops : List (Op V)) (s : StoreState V) (A : String)
    (h1 : DataStore.fetch s A = none) (h2 : DataStore.introspect s A = none)
    (hw : ∀ o ∈ ops, Op.writesTo o A = false) :
    DataStore.fetch (runOps s ops) A = none ∧
    DataStore.introspect (runOps s ops) A = none := by
  induction ops generalizing s with
  | nil => exact ⟨h1, h2⟩
  | cons o rest ih =>
    have ho := hw o (List.mem_cons_self o rest)
    have step := absent_applyOp s o A h1 h2 ho
    exact ih (applyOp s o) step.1 step.2
      (fun o' ho' => hw o' (List.mem_cons_of_mem o ho'))

/-! ### Claim theorems -/

/-- C1: for every address `A` and payload `p`, `update(A, p)` (with any
`introspection` argument) followed by `fetch(A)` returns exactly the
payload `p` that was stored. -/
theorem update_then_fetch_returns_payload {V : Type} (s : StoreState V)
    (A : String) (p : Obj V) (i : Option (Obj V)) :
    DataStore.fetch (DataStore.update s A p i) A = some p :=
  fetch_update_eq s A p i

/-- C2: `update` replaces the stored overlay only when the `introspection`
argument is supplied and truthy (a non-empty dict); with a falsy argument
(the `None` default, or an empty dict) the overlay table is untouched at
every address. In particular `update(A, p1, o1)` followed by
`update(A, p2)` leaves `introspect(A) = o1` while `fetch(A) = p2`. -/
theorem update_overlay_persistence {V : Type} (s : StoreState V)
    (A B : String) (p1 p2 : Obj V) (o1 : Obj V) (i : Option (Obj V))
    (ho : o1.truthy = true) (hi : optTruthy i = false) :
    DataStore.introspect (DataStore.update s A p2 i) B = DataStore.introspect s B
  ∧ DataStore.introspect (DataStore.update s A p1 (some o1)) A = some o1
  ∧ DataStore.introspect
      (DataStore.update (DataStore.update s A p1 (some o1)) A p2 none) A = some o1
  ∧ DataStore.fetch
      (DataStore.update (DataStore.update s A p1 (some o1)) A p2 none) A = some p2 := by
  have ht : optTruthy (some o1) = true := ho
  refine ⟨introspect_update_falsy s A B p2 i hi, ?_, ?_, fetch_update_eq _ A p2 none⟩
  · exact introspect_update_truthy s A p1 (some o1) ht
  · exact (introspect_update_falsy _ A A p2 none rfl).trans
      (introspect_update_truthy s A p1 (some o1) ht)

/-- Witness for C2 at a concrete instantiation. -/
theorem update_overlay_persistence_witness :
    (Obj.truthy (Obj.dict [("k", (0 : Nat))]) = true
      ∧ optTruthy (none : Option (Obj Nat)) = false)
  ∧ (DataStore.introspect
        (DataStore.update (StoreState.uninit Nat) "a" (Obj.other false) none) "b"
        = DataStore.introspect (StoreState.uninit Nat) "b"
    ∧ DataStore.introspect
        (DataStore.update (StoreState.uninit Nat) "a" (Obj.other true)
          (some (Obj.dict [("k", (0 : Nat))]))) "a"
        = some (Obj.dict [("k", (0 : Nat))])
    ∧ DataStore.introspect
        (DataStore.update
          (DataStore.update (StoreState.uninit Nat) "a" (Obj.other true)
            (some (Obj.dict [("k", (0 : Nat))]))) "a" (Obj.other false) none) "a"
        = some (Obj.dict [("k", (0 : Nat))])
    ∧ DataStore.fetch
        (DataStore.update
          (DataStore.update (StoreState.uninit Nat) "a" (Obj.other true)
            (some (Obj.dict [("k", (0 : Nat))]))) "a" (Obj.other false) none) "a"
        = some (Obj.other false)) :=
  ⟨⟨rfl, rfl⟩,
   update_overlay_persistence (StoreState.uninit Nat) "a" "b"
     (Obj.other true) (Obj.other false) (Obj.dict [("k", (0 : Nat))]) none rfl rfl⟩

/-- C6: `remove(A)` makes both `fetch(A)` and `introspect(A)` report
absent, whatever the prior state; and on a state whose tables do not
mention `A`, `remove(A)` is a complete no-op (and in the model it is a
total function, so it never raises). -/
theorem remove_clears_both {V : Type} (s t : StoreState V) (A : String)
    (h1 : DataStore.fetch t A = none) (h2 : DataStore.introspect t A = none) :
    DataStore.fetch (DataStore.remove s A) A = none
  ∧ DataStore.introspect (DataStore.remove s A) A = none
  ∧ DataStore.remove t A = t := by
  refine ⟨fetch_remove_eq s A, introspect_remove_eq s A, ?_⟩
  cases t with
  | mk b d itab =>
    simp only [DataStore.fetch] at h1
    simp only [DataStore.introspect] at h2
    have hd : (fun a => if a = A then none else d a) = d := by
      funext a
      by_cases ha : a = A
      · subst ha; simp [h1]
      · simp [ha]
    have hi : (fun a => if a = A then none else itab a) = itab := by
      funext a
      by_cases ha : a = A
      · subst ha; simp [h2]
      · simp [ha]
    show StoreState.mk b _ _ = StoreState.mk b d itab
    rw [hd, hi]

/-- Witness for C6 at a concrete instantiation. -/
theorem remove_clears_both_witness :
    (DataStore.fetch (StoreState.uninit Nat) "a" = none
      ∧ DataStore.introspect (StoreState.uninit Nat) "a" = none)
  ∧ (DataStore.fetch
        (DataStore.remove
          (DataStore.update (StoreState.uninit Nat) "a" (Obj.other true) none) "a") "a"
        = none
    ∧ DataStore.introspect
        (DataStore.remove
          (DataStore.update (StoreState.uninit Nat) "a" (Obj.other true) none) "a") "a"
        = none
    ∧ DataStore.remove (StoreState.uninit Nat) "a" = StoreState.uninit Nat) :=
  ⟨⟨rfl, rfl⟩,
   remove_clears_both
     (DataStore.update (StoreState.uninit Nat) "a" (Obj.other true) none)
     (StoreState.uninit Nat) "a" rfl rfl⟩

/-- C9: for distinct addresses `A ≠ B`, `update(A, p, i)` and `remove(A)`
leave both the stored payload and the stored overlay of `B` unchanged. -/
theorem update_remove_frame {V : Type} (s : StoreState V) (A B : String)
    (p : Obj V) (i : Option (Obj V)) (h : A ≠ B) :
    DataStore.fetch (DataStore.update s A p i) B = DataStore.fetch s B
  ∧ DataStore.introspect (DataStore.update s A p i) B = DataStore.introspect s B
  ∧ DataStore.fetch (DataStore.remove s A) B = DataStore.fetch s B
  ∧ DataStore.introspect (DataStore.remove s A) B = DataStore.introspect s B := by
  have hne : B ≠ A := h.symm
  exact ⟨fetch_update_ne s A B p i hne, introspect_update_ne s A B p i hne,
         fetch_remove_ne s A B hne, introspect_remove_ne s A B hne⟩

/-- Witness for C9 at a concrete instantiation. -/
theorem update_remove_frame_witness :
    ("a" : String) ≠ "b"
  ∧ (DataStore.fetch
        (DataStore.update (StoreState.uninit Nat) "a" (Obj.other true) none) "b"
        = DataStore.fetch (StoreState.uninit Nat) "b"
    ∧ DataStore.introspect
        (DataStore.update (StoreState.uninit Nat) "a" (Obj.other true) none) "b"
        = DataStore.introspect (StoreState.uninit Nat) "b"
    ∧ DataStore.fetch (DataStore.remove (StoreState.uninit Nat) "a") "b"
        = DataStore.fetch (StoreState.uninit Nat) "b"
    ∧ DataStore.introspect (DataStore.remove (StoreState.uninit Nat) "a") "b"
        = DataStore.introspect (StoreState.uninit Nat) "b") :=
  ⟨by decide,
   update_remove_frame (StoreState.uninit Nat) "a" "b" (Obj.other true) none
     (by decide)⟩

/-- C7: for every address `A` that is never written by a run of mutating
calls against the freshly acquired store, both `fetch(A)` and
`introspect(A)` report absent; the same holds after `remove(A)` from any
state followed by calls that never write `A`. In the model all four query
and mutation entry points are total functions, so none of them raises for
an unknown address. -/
theorem unwritten_address_absent {V : Type} (ops : List (Op V))
    (s : StoreState V) (A : String)
    (hw : ∀ o ∈ ops, Op.writesTo o A = false) :
    (DataStore.fetch (runOps (DataStore.acquire (V := V) none).1 ops) A = none
      ∧ DataStore.introspect (runOps (DataStore.acquire (V := V) none).1 ops) A = none)
  ∧ (DataStore.fetch (runOps (DataStore.remove s A) ops) A = none
      ∧ DataStore.introspect (runOps (DataStore.remove s A) ops) A = none) :=
  ⟨absent_runOps ops (DataStore.acquire none).1 A rfl rfl hw,
   absent_runOps ops (DataStore.remove s A) A (fetch_remove_eq s A)
     (introspect_remove_eq s A) hw⟩

/-- Witness for C7 at a concrete instantiation. -/
theorem unwritten_address_absent_witness :
    (∀ o ∈ [Op.upd "b" (Obj.other (V := Nat) true) none, Op.rem "c"],
        Op.writesTo o "a" = false)
  ∧ ((DataStore.fetch
        (runOps (DataStore.acquire (V := Nat) none).1
          [Op.upd "b" (Obj.other true) none, Op.rem "c"]) "a" = none
      ∧ DataStore.introspect
          (runOps (DataStore.acquire (V := Nat) none).1
            [Op.upd "b" (Obj.other true) none, Op.rem "c"]) "a" = none)
    ∧ (DataStore.fetch
          (runOps (DataStore.remove (StoreState.uninit Nat) "a")
            [Op.upd "b" (Obj.other true) none, Op.rem "c"]) "a" = none
      ∧ DataStore.introspect
          (runOps (DataStore.remove (StoreState.uninit Nat) "a")
            [Op.upd "b" (Obj.other true) none, Op.rem "c"]) "a" = none)) :=
  ⟨by decide,
   unwritten_address_absent [Op.upd "b" (Obj.other true) none, Op.rem "c"]
     (StoreState.uninit Nat) "a" (by decide)⟩

/-- C5: calling `DataStore()` again returns the identical shared instance
and leaves the class-level instance slot unchanged (so `__init__` creates
the tables only once, on the first call); and an `update` performed on the
instance returned by one call is visible to a `fetch` on the instance
returned by a later call. -/
theorem dataStore_singleton {V : Type} (inst : Option (StoreState V))
    (A : String) (p : Obj V) (i : Option (Obj V)) :
    (DataStore.acquire ((DataStore.acquire inst).2)).1 = (DataStore.acquire inst).1
  ∧ (DataStore.acquire ((DataStore.acquire inst).2)).2 = (DataStore.acquire inst).2
  ∧ DataStore.fetch
      ((DataStore.acquire
        (some (DataStore.update ((DataStore.acquire inst).1) A p i))).1) A
      = some p := by
  have ht : (DataStore.init (DataStore.new inst)).isInit = true := init_isInit _
  have hfix : DataStore.init (DataStore.init (DataStore.new inst))
      = DataStore.init (DataStore.new inst) := init_of_isInit _ ht
  have hu : DataStore.init
        (DataStore.update (DataStore.init (DataStore.new inst)) A p i)
      = DataStore.update (DataStore.init (DataStore.new inst)) A p i :=
    init_of_isInit _ (by rw [update_isInit]; exact ht)
  refine ⟨?_, ?_, ?_⟩
  · show DataStore.init (DataStore.new (some (DataStore.init (DataStore.new inst))))
        = DataStore.init (DataStore.new inst)
    exact hfix
  · show some (DataStore.init (DataStore.new (some (DataStore.init (DataStore.new inst)))))
        = some (DataStore.init (DataStore.new inst))
    exact congrArg some hfix
  · show DataStore.fetch
        (DataStore.init
          (DataStore.new
            (some (DataStore.update (DataStore.init (DataStore.new inst)) A p i)))) A
        = some p
    show DataStore.fetch
        (DataStore.init
          (DataStore.update (DataStore.init (DataStore.new inst)) A p i)) A
        = some p
    rw [hu]
    exact fetch_update_eq _ A p i

/-- C3 counterexample: `store["a"] = (x, y, z)` with a 3-element tuple does
NOT raise the invalid-argument error and does not leave the state
unchanged — `isinstance(value, tuple)` dispatches it to
`update("a", x, y)`, which stores `x` as the payload. -/
theorem setitem_tuple_counterexample :
    DataStore.setItem (StoreState.uninit Nat) "a"
        (Obj.tup [Obj.other true, Obj.other true, Obj.other true])
      = Except.ok
          (DataStore.update (StoreState.uninit Nat) "a" (Obj.other true)
            (some (Obj.other true)))
  ∧ DataStore.fetch
        (DataStore.update (StoreState.uninit Nat) "a" (Obj.other true)
          (some (Obj.other true))) "a"
      = some (Obj.other true)
  ∧ DataStore.setItem (StoreState.uninit Nat) "a"
        (Obj.tup [Obj.other true, Obj.other true, Obj.other true])
      ≠ Except.error (PyError.valueError "Invalid value.") := by
  refine ⟨rfl, fetch_update_eq _ _ _ _, ?_⟩
  intro h
  simp [DataStore.setItem] at h

/-- C3 (amended): indexed write with a bare dict behaves as
`update(address, value)`; with a tuple of length at least two it behaves
as `update(address, value[0], value[1])` — whatever the length, with no
error and extra elements ignored; with a tuple of length below two it
raises an index error before the state is touched; and with a non-tuple,
non-dict value it raises the invalid-argument error before the state is
touched. -/
theorem setitem_dispatch {V : Type} (s : StoreState V) (key : String)
    (entries : List (String × V)) (e0 e1 : Obj V) (rest : List (Obj V))
    (shortTup : List (Obj V)) (b : Bool) (hshort : shortTup.length < 2) :
    DataStore.setItem s key (Obj.dict entries)
      = Except.ok (DataStore.update s key (Obj.dict entries) none)
  ∧ DataStore.setItem s key (Obj.tup (e0 :: e1 :: rest))
      = Except.ok (DataStore.update s key e0 (some e1))
  ∧ DataStore.setItem s key (Obj.tup shortTup) = Except.error PyError.indexError
  ∧ DataStore.setItem s key (Obj.other b)
      = Except.error (PyError.valueError "Invalid value.") := by
  refine ⟨rfl, rfl, ?_, rfl⟩
  match shortTup, hshort with
  | [], _ => rfl
  | [x], _ => rfl
  | x :: y :: t, h => simp [List.length] at h; omega

/-- Witness for the amended C3 at a concrete instantiation. -/
theorem setitem_dispatch_witness :
    ([Obj.other (V := Nat) true].length < 2)
  ∧ (DataStore.setItem (StoreState.uninit Nat) "a" (Obj.dict [])
        = Except.ok (DataStore.update (StoreState.uninit Nat) "a" (Obj.dict []) none)
    ∧ DataStore.setItem (StoreState.uninit Nat) "a"
          (Obj.tup (Obj.other true :: Obj.other false :: []))
        = Except.ok
            (DataStore.update (StoreState.uninit Nat) "a" (Obj.other true)
              (some (Obj.other false)))
    ∧ DataStore.setItem (StoreState.uninit Nat) "a"
          (Obj.tup [Obj.other true]) = Except.error PyError.indexError
    ∧ DataStore.setItem (StoreState.uninit Nat) "a" (Obj.other false)
        = Except.error (PyError.valueError "Invalid value.")) :=
  ⟨by decide,
   setitem_dispatch (StoreState.uninit Nat) "a" [] (Obj.other true)
     (Obj.other false) [] [Obj.other true] false (by decide)⟩

theorem introStep_apply (d : DataKeys → Option String)
    (p : Option String × DataKeys) (k : DataKeys) :
    introStep d p k
      = if strTruthy p.1 then (if k = p.2 then p.1 else d k) else d k := by
  unfold introStep
  by_cases h : strTruthy p.1 <;> simp [h]

/-- C4: the introspection dict built by `generate_introspection_for`
contains exactly the roles whose keyword argument was supplied and
non-empty (Python-truthy), each mapped to that argument; every other role
is absent. In particular, supplying only `value_key` yields a dict whose
single entry is `VALUE` mapped to that key. -/
theorem generate_introspection_exact (self : DataKeys)
    (connection_key value_key severity_key write_access_key enum_strings_key
     unit_key precision_key upper_limit_key lower_limit_key : Option String)
    (role : DataKeys) :
    DataKeys.generate_introspection_for self connection_key value_key
      severity_key write_access_key enum_strings_key unit_key precision_key
      upper_limit_key lower_limit_key role
      = (match role with
         | .CONNECTION => if strTruthy connection_key then connection_key else none
         | .VALUE => if strTruthy value_key then value_key else none
         | .SEVERITY => if strTruthy severity_key then severity_key else none
         | .WRITE_ACCESS => if strTruthy write_access_key then write_access_key else none
         | .ENUM_STRINGS => if strTruthy enum_strings_key then enum_strings_key else none
         | .UNIT => if strTruthy unit_key then unit_key else none
         | .PRECISION => if strTruthy precision_key then precision_key else none
         | .UPPER_LIMIT => if strTruthy upper_limit_key then upper_limit_key else none
         | .LOWER_LIMIT => if strTruthy lower_limit_key then lower_limit_key else none) := by
  cases role <;>
    simp [DataKeys.generate_introspection_for, List.foldl, introStep_apply]

/-- C8: `DEFAULT_INTROSPECTION` is the dict whose key set is exactly the
nine role names, in declaration order, and which maps every role name to
that same name. -/
theorem default_introspection_domain :
    DEFAULT_INTROSPECTION.map Prod.fst
      = ["CONNECTION", "VALUE", "SEVERITY", "WRITE_ACCESS", "ENUM_STRINGS",
         "UNIT", "PRECISION", "UPPER_LIMIT", "LOWER_LIMIT"]
  ∧ ∀ i : DataKeys,
      List.lookup (DataKeys.name i) DEFAULT_INTROSPECTION
        = some (DataKeys.name i) := by
  constructor
  · rfl
  · intro i
    cases i <;> rfl
